import Mathlib

/-
Shallow embedding of the flowCFD timeline placement engine.

Source files embedded:
  frontend/src/utils/timelineSnapping.ts
    (findSnapPoints, calculateSnap, calculateMagneticSnap, useTimelineSnapping)
  frontend/src/components/AudioWaveformDemo.tsx
    (handleClipMove of MultiTrackTimeline, lines 710-849)

Modelling conventions:
  - JS numbers are modelled as rationals.
  - The snapDistance field of SnapResult, which the source initialises to
    Infinity, is modelled as Option Rat with none standing for Infinity.
  - JS Array.prototype.sort with comparator (a, b) => a.time - b.time is a
    stable ascending sort by time; it is modelled by a stable insertion sort.
  - Math.round(x) is floor (x + 1/2), which agrees with JS for every input
    the pipeline produces.
-/

namespace FlowCFD

/- Batteries marks the rational arithmetic operations irreducible, which
blocks evaluation of concrete scenarios by decide; restore the default
reducibility for this file. -/
attribute [local semireducible] Rat.mul Rat.inv Rat.add Rat.sub Rat.ofScientific

/-- Snap point type tag, from the string union in timelineSnapping.ts. -/
inductive SnapType where
  | clip_start
  | clip_end
  | keyframe
  | playhead
  | grid
deriving DecidableEq, Repr

/-- Optional provenance metadata of a snap point. -/
structure SnapMetadata where
  clipId : Option String
  trackId : Option Int
  isKeyframe : Option Bool
deriving DecidableEq, Repr

/-- SnapPoint interface of timelineSnapping.ts. -/
structure SnapPoint where
  time : Rat
  type : SnapType
  metadata : Option SnapMetadata
deriving DecidableEq, Repr

/-- SnapResult interface; snapDistance = none models Infinity. -/
structure SnapResult where
  snapped : Bool
  snapTime : Rat
  originalTime : Rat
  snapPoint : Option SnapPoint
  snapDistance : Option Rat
deriving DecidableEq, Repr

/-- TimelineClip interface. -/
structure TimelineClip where
  id : String
  track_id : Int
  start_time : Rat
  end_time : Rat
  timeline_position : Rat
deriving DecidableEq, Repr

/-- Track interface. -/
structure Track where
  id : Int
  clips : List TimelineClip
  enabled : Bool
  locked : Bool
deriving DecidableEq, Repr

/-- SNAP_THRESHOLD constant (pixels). -/
def SNAP_THRESHOLD : Rat := 15

/-- PIXELS_PER_SECOND constant. -/
def PIXELS_PER_SECOND : Rat := 50

/-- Clip-boundary snap points contributed by one track in findSnapPoints:
disabled tracks contribute nothing, the excluded clip is skipped, and every
other clip yields a clip_start and a clip_end point. -/
def trackClipPoints (excludeClipId : Option String) (t : Track) : List SnapPoint :=
  if t.enabled then
    t.clips.flatMap fun clip =>
      if excludeClipId = some clip.id then []
      else
        [ { time := clip.timeline_position, type := SnapType.clip_start,
            metadata := some { clipId := some clip.id, trackId := some clip.track_id, isKeyframe := none } },
          { time := clip.timeline_position + (clip.end_time - clip.start_time), type := SnapType.clip_end,
            metadata := some { clipId := some clip.id, trackId := some clip.track_id, isKeyframe := none } } ]
  else []

/-- Grid snap points of findSnapPoints: evenly spaced from 0 up to one
interval past the maximum extent of all known content. -/
def gridPoints (tracks : List Track) (playheadTime : Option Rat)
    (keyframes : Option (List Rat)) (g : Rat) : List SnapPoint :=
  let clipEnds := tracks.flatMap fun t =>
    t.clips.map fun c => c.timeline_position + (c.end_time - c.start_time)
  let maxTime := (clipEnds ++ keyframes.getD []).foldl max (playheadTime.getD 0)
  let n : Nat := if maxTime + g < 0 then 0 else (Rat.floor ((maxTime + g) / g)).toNat + 1
  (List.range n).map fun i => { time := (i : Rat) * g, type := SnapType.grid, metadata := none }

/-- Stable insert of a snap point before the first strictly later point. -/
def insertByTime (p : SnapPoint) : List SnapPoint → List SnapPoint
  | [] => [p]
  | q :: qs => if p.time ≤ q.time then p :: q :: qs else q :: insertByTime p qs

/-- Stable ascending sort by time, modelling Array.prototype.sort with
comparator (a, b) => a.time - b.time. -/
def sortByTime : List SnapPoint → List SnapPoint
  | [] => []
  | p :: ps => insertByTime p (sortByTime ps)

/-- findSnapPoints of timelineSnapping.ts. -/
def findSnapPoints (tracks : List Track) (excludeClipId : Option String)
    (playheadTime : Option Rat) (keyframes : Option (List Rat))
    (gridInterval : Option Rat) : List SnapPoint :=
  let pts := tracks.flatMap (trackClipPoints excludeClipId)
  let pts := pts ++
    (match playheadTime with
     | some p => [{ time := p, type := SnapType.playhead, metadata := none }]
     | none => [])
  let pts := pts ++
    (match keyframes with
     | some ks => ks.map fun k =>
         { time := k, type := SnapType.keyframe,
           metadata := some { clipId := none, trackId := none, isKeyframe := some true } }
     | none => [])
  let pts := pts ++
    (match gridInterval with
     | some g => if 0 < g then gridPoints tracks playheadTime keyframes g else []
     | none => [])
  sortByTime pts

/-- Default enabledSnapTypes parameter of calculateSnap. -/
def defaultEnabledSnapTypes : List SnapType :=
  [SnapType.clip_start, SnapType.clip_end, SnapType.keyframe, SnapType.playhead]

/-- Initial bestSnap value of calculateSnap: not snapped, original time,
infinite distance. -/
def initialSnapResult (targetTime : Rat) : SnapResult :=
  { snapped := false, snapTime := targetTime, originalTime := targetTime,
    snapPoint := none, snapDistance := none }

/-- Strict comparison of a finite pixel distance against the current best
distance, where none models Infinity (every finite distance is below it). -/
def distLT (d : Rat) : Option Rat → Prop
  | none => True
  | some b => d < b

instance (d : Rat) (b : Option Rat) : Decidable (distLT d b) := by
  cases b with
  | none => exact isTrue trivial
  | some b => exact inferInstanceAs (Decidable (d < b))

/-- The for-loop of calculateSnap over the snap points, carrying bestSnap. -/
def calcSnapGo (targetPixel : Rat) (originalTime : Rat) (enabled : List SnapType) :
    List SnapPoint → SnapResult → SnapResult
  | [], best => best
  | p :: ps, best =>
    if p.type ∈ enabled then
      let d := |targetPixel - p.time * PIXELS_PER_SECOND|
      if d ≤ SNAP_THRESHOLD ∧ distLT d best.snapDistance then
        calcSnapGo targetPixel originalTime enabled ps
          { snapped := true, snapTime := p.time, originalTime := originalTime,
            snapPoint := some p, snapDistance := some d }
      else calcSnapGo targetPixel originalTime enabled ps best
    else calcSnapGo targetPixel originalTime enabled ps best

/-- calculateSnap of timelineSnapping.ts. -/
def calculateSnap (targetTime : Rat) (snapPoints : List SnapPoint)
    (enabledSnapTypes : List SnapType) : SnapResult :=
  calcSnapGo (targetTime * PIXELS_PER_SECOND) targetTime enabledSnapTypes
    snapPoints (initialSnapResult targetTime)

/-- Return type of calculateMagneticSnap. -/
structure MagneticSnapResult where
  startSnap : SnapResult
  endSnap : SnapResult
  finalPosition : Rat
  snapIndicators : List SnapPoint
deriving DecidableEq, Repr

/-- Test used by calculateMagneticSnap: the winning snap point of a result
is a clip_start or clip_end point. -/
def isClipSnap (r : SnapResult) : Bool :=
  match r.snapPoint with
  | some p => p.type == SnapType.clip_start || p.type == SnapType.clip_end
  | none => false

/-- Comparison of two possibly-infinite snap distances, where none models
Infinity; mirrors the JS comparison startSnap.snapDistance <= endSnap.snapDistance. -/
def distLE : Option Rat → Option Rat → Prop
  | _, none => True
  | none, some _ => False
  | some a, some b => a ≤ b

instance (a b : Option Rat) : Decidable (distLE a b) := by
  cases a with
  | none => cases b with
    | none => exact isTrue trivial
    | some b => exact isFalse id
  | some a => cases b with
    | none => exact isTrue trivial
    | some b => exact inferInstanceAs (Decidable (a ≤ b))

/-- calculateMagneticSnap of timelineSnapping.ts. Note: it builds the
catalog without any grid interval. -/
def calculateMagneticSnap (draggedClip : TimelineClip) (newPosition : Rat)
    (tracks : List Track) (playheadTime : Option Rat)
    (keyframes : Option (List Rat)) : MagneticSnapResult :=
  let clipDuration := draggedClip.end_time - draggedClip.start_time
  let snapPoints := findSnapPoints tracks (some draggedClip.id) playheadTime keyframes none
  let startSnap := calculateSnap newPosition snapPoints defaultEnabledSnapTypes
  let endSnap := calculateSnap (newPosition + clipDuration) snapPoints defaultEnabledSnapTypes
  let chosen : Rat × List SnapPoint :=
    if startSnap.snapped && endSnap.snapped then
      if isClipSnap startSnap && !(isClipSnap endSnap) then
        (startSnap.snapTime, startSnap.snapPoint.toList)
      else if isClipSnap endSnap && !(isClipSnap startSnap) then
        (endSnap.snapTime - clipDuration, endSnap.snapPoint.toList)
      else if distLE startSnap.snapDistance endSnap.snapDistance then
        (startSnap.snapTime, startSnap.snapPoint.toList)
      else
        (endSnap.snapTime - clipDuration, endSnap.snapPoint.toList)
    else if startSnap.snapped then
      (startSnap.snapTime, startSnap.snapPoint.toList)
    else if endSnap.snapped then
      (endSnap.snapTime - clipDuration, endSnap.snapPoint.toList)
    else (newPosition, [])
  { startSnap := startSnap, endSnap := endSnap,
    finalPosition := max 0 chosen.1, snapIndicators := chosen.2 }

/-- snapClipPosition closure returned by useTimelineSnapping: it forwards to
calculateMagneticSnap and does not pass the gridInterval it was given. -/
def snapClipPosition (tracks : List Track) (playheadTime : Option Rat)
    (keyframes : Option (List Rat)) (gridInterval : Option Rat)
    (clip : TimelineClip) (newPosition : Rat) : MagneticSnapResult :=
  calculateMagneticSnap clip newPosition tracks playheadTime keyframes

/-- ADJACENCY_TOLERANCE constant of handleClipMove (10 ms). -/
def ADJACENCY_TOLERANCE : Rat := 1/100

/-- True-overlap test of handleClipMove (lines 770-773): the dragged extent
[pos, pos + dur) and the extent of the other clip intersect by more than the
adjacency tolerance on both sides. -/
def trueOverlap (pos dur : Rat) (other : TimelineClip) : Prop :=
  pos < (other.timeline_position + (other.end_time - other.start_time)) - ADJACENCY_TOLERANCE ∧
  pos + dur > other.timeline_position + ADJACENCY_TOLERANCE

instance (pos dur : Rat) (other : TimelineClip) : Decidable (trueOverlap pos dur other) :=
  instDecidableAnd

/-- Adjacency exception of handleClipMove (lines 776-785): one edge of the
dragged clip lies within 0.1 s of the opposite edge of the other clip, so the
placement counts as intentional adjacent snapping and is not adjusted. -/
def adjacentException (pos dur : Rat) (other : TimelineClip) : Prop :=
  |pos - (other.timeline_position + (other.end_time - other.start_time))| < 1/10 ∨
  |pos + dur - other.timeline_position| < 1/10

instance (pos dur : Rat) (other : TimelineClip) : Decidable (adjacentException pos dur other) :=
  instDecidableOr

/-- The collision for-loop of handleClipMove (lines 764-799) over the other
clips of the target track: on the first true overlap it either tolerates the
placement (adjacency exception, continue) or slides once and breaks. -/
def resolveCollisionLoop (pos dur : Rat) : List TimelineClip → Rat
  | [] => pos
  | other :: rest =>
    if trueOverlap pos dur other then
      if adjacentException pos dur other then
        resolveCollisionLoop pos dur rest
      else if pos < other.timeline_position then
        max 0 (other.timeline_position - dur)
      else
        other.timeline_position + (other.end_time - other.start_time)
    else resolveCollisionLoop pos dur rest

/-- Collision step of handleClipMove for a target track: the loop runs over
the clips of the track other than the dragged one. -/
def collisionStep (targetTrack : Track) (clipId : String) (dur : Rat) (pos : Rat) : Rat :=
  resolveCollisionLoop pos dur (targetTrack.clips.filter fun c => c.id != clipId)

/-- Lookup of the dragged clip across all tracks (lines 714-716). -/
def findClip (tracks : List Track) (clipId : String) : Option TimelineClip :=
  (tracks.flatMap fun t => t.clips).find? fun c => c.id == clipId

/-- Math.round as used on nonnegative positions: floor (x + 1/2). -/
def jsRound (q : Rat) : Int := Rat.floor (q + 1/2)

/-- Frame duration at the assumed 30 fps rate. -/
def frameTime : Rat := 1/30

/-- Frame quantization of handleClipMove (lines 748-750). -/
def quantizeToFrame (q : Rat) : Rat := ((jsRound (q / frameTime) : Int) : Rat) * frameTime

/-- A time is frame aligned when it is an integer multiple of the frame
duration 1/30 s. -/
def isFrameAligned (q : Rat) : Prop := ∃ k : Int, q = (k : Rat) * frameTime

/-- Position of the dragged clip after snapping, non-negativity clamping and
frame quantization, before collision resolution (lines 723-750). -/
def preCollisionPosition (tracks : List Track) (playheadTime : Option Rat)
    (keyframes : Option (List Rat)) (gridInterval : Option Rat)
    (snapEnabled : Bool) (movedClip : TimelineClip) (rawPosition : Rat) : Rat :=
  let p :=
    if snapEnabled then
      (snapClipPosition tracks playheadTime keyframes gridInterval movedClip rawPosition).finalPosition
    else rawPosition
  quantizeToFrame (max 0 p)

/-- Body of the move request sent to /api/clips/move (lines 823-831): it
carries only the clip id, the destination track id and the new position. -/
structure MoveRequest where
  clip_id : String
  track_id : Int
  timeline_position : Rat
deriving DecidableEq, Repr

/-- Append the moved clip to the first track with the destination id,
modelling updatedTracks.find followed by push (lines 809-816). -/
def pushToTrack (newTrackId : Int) (newClip : TimelineClip) : List Track → List Track
  | [] => []
  | t :: ts =>
    if t.id == newTrackId then { t with clips := t.clips ++ [newClip] } :: ts
    else t :: pushToTrack newTrackId newClip ts

/-- Optimistic local mutation of handleClipMove (lines 802-819): the dragged
clip is filtered out of every track, then the repositioned copy is appended
to the first track with the destination id, if any. -/
def optimisticUpdate (tracks : List Track) (clipId : String) (newTrackId : Int)
    (movedClip : TimelineClip) (finalPosition : Rat) : List Track :=
  let updatedTracks := tracks.map fun t =>
    { t with clips := t.clips.filter fun c => c.id != clipId }
  pushToTrack newTrackId
    { movedClip with track_id := newTrackId, timeline_position := finalPosition }
    updatedTracks

/-- handleClipMove of AudioWaveformDemo.tsx (lines 710-849), as the function
from the drop parameters to the optimistic local state and the persistence
request; none models the early return when the dragged clip is not found.
Console logging, the snap-indicator timer and the asynchronous rollback are
outside the state transition modelled here. -/
def handleClipMove (tracks : List Track) (playheadTime : Option Rat)
    (keyframes : Option (List Rat)) (gridInterval : Option Rat)
    (snapEnabled : Bool) (clipId : String) (newTrackId : Int)
    (rawPosition : Rat) : Option (List Track × MoveRequest) :=
  match findClip tracks clipId with
  | none => none
  | some movedClip =>
    let q := preCollisionPosition tracks playheadTime keyframes gridInterval
      snapEnabled movedClip rawPosition
    let dur := movedClip.end_time - movedClip.start_time
    let finalPosition :=
      match tracks.find? (fun t => t.id == newTrackId) with
      | some targetTrack => collisionStep targetTrack clipId dur q
      | none => q
    some (optimisticUpdate tracks clipId newTrackId movedClip finalPosition,
      { clip_id := clipId, track_id := newTrackId, timeline_position := finalPosition })

/-- Total number of clips carrying a given id across all tracks. -/
def clipIdCount (clipId : String) (tracks : List Track) : Nat :=
  (tracks.map fun t => (t.clips.filter fun c => c.id == clipId).length).sum

/- Concrete timeline states used in scenario theorems and witnesses. -/

/-- A 5 s clip [0, 5) at position 0 on track 1. -/
def clipA : TimelineClip :=
  { id := "a", track_id := 1, start_time := 0, end_time := 5, timeline_position := 0 }

/-- A 2 s clip parked at position 20 on track 2; the clip that gets dragged. -/
def clipB : TimelineClip :=
  { id := "b", track_id := 2, start_time := 0, end_time := 2, timeline_position := 20 }

/-- Track 1 holding clipA. -/
def trackA : Track := { id := 1, clips := [clipA], enabled := true, locked := false }

/-- Track 2 holding clipB. -/
def trackB : Track := { id := 2, clips := [clipB], enabled := true, locked := false }

/-- Variant of clipA ending at 5.05 s, a non-frame-aligned boundary. -/
def clipA505 : TimelineClip :=
  { id := "a", track_id := 1, start_time := 0, end_time := 101/20, timeline_position := 0 }

/-- Track 1 holding clipA505. -/
def trackA505 : Track := { id := 1, clips := [clipA505], enabled := true, locked := false }

/-- Variant of clipA ending at 5.1 s. -/
def clipA51 : TimelineClip :=
  { id := "a", track_id := 1, start_time := 0, end_time := 51/10, timeline_position := 0 }

/-- Track 1 holding clipA51. -/
def trackA51 : Track := { id := 1, clips := [clipA51], enabled := true, locked := false }

/-- A 2 s clip spanning [6, 8) on track 1. -/
def clipC68 : TimelineClip :=
  { id := "c", track_id := 1, start_time := 0, end_time := 2, timeline_position := 6 }

/-- A 5.5 s clip spanning [0, 5.5) on track 1. -/
def clipC055 : TimelineClip :=
  { id := "d", track_id := 1, start_time := 0, end_time := 11/2, timeline_position := 0 }

/-- Track 1 holding clipC68 then clipC055, in that scan order. -/
def trackFlip : Track := { id := 1, clips := [clipC68, clipC055], enabled := true, locked := false }

/- Invariants of the calculateSnap loop. -/

/-- The loop never changes the originalTime it was seeded with. -/
theorem calcSnapGo_originalTime (tp orig : Rat) (en : List SnapType)
    (ps : List SnapPoint) : ∀ best : SnapResult, best.originalTime = orig →
    (calcSnapGo tp orig en ps best).originalTime = orig := by
  induction ps with
  | nil => intro best h; simpa [calcSnapGo] using h
  | cons p ps ih =>
    intro best h
    simp only [calcSnapGo]
    split_ifs with h1 h2
    · exact ih _ rfl
    · exact ih _ h
    · exact ih _ h

/-- If the loop ends not snapped, it never replaced the seed result. -/
theorem calcSnapGo_not_snapped (tp orig : Rat) (en : List SnapType)
    (ps : List SnapPoint) : ∀ best : SnapResult,
    (calcSnapGo tp orig en ps best).snapped = false →
    calcSnapGo tp orig en ps best = best := by
  induction ps with
  | nil => intro best _; rfl
  | cons p ps ih =>
    intro best h
    simp only [calcSnapGo] at h ⊢
    split_ifs at h ⊢ with h1 h2
    · have := ih _ h
      rw [this] at h
      simp at h
    · exact ih _ h
    · exact ih _ h

/-- Any finite distance the loop reports is within the snap threshold,
provided the seed distance was. -/
theorem calcSnapGo_bound (tp orig : Rat) (en : List SnapType)
    (ps : List SnapPoint) : ∀ best : SnapResult,
    (∀ b : Rat, best.snapDistance = some b → b ≤ SNAP_THRESHOLD) →
    ∀ d : Rat, (calcSnapGo tp orig en ps best).snapDistance = some d →
    d ≤ SNAP_THRESHOLD := by
  induction ps with
  | nil => intro best hb d hd; exact hb d hd
  | cons p ps ih =>
    intro best hb d hd
    simp only [calcSnapGo] at hd
    split_ifs at hd with h1 h2
    · refine ih _ ?_ d hd
      intro b hbeq
      simp only [Option.some.injEq] at hbeq
      subst hbeq
      exact h2.1
    · exact ih _ hb d hd
    · exact ih _ hb d hd

/-- If the loop ends snapped, it reports a finite distance, provided the
seed did so when snapped. -/
theorem calcSnapGo_snapped_some (tp orig : Rat) (en : List SnapType)
    (ps : List SnapPoint) : ∀ best : SnapResult,
    (best.snapped = true → ∃ b : Rat, best.snapDistance = some b) →
    (calcSnapGo tp orig en ps best).snapped = true →
    ∃ d : Rat, (calcSnapGo tp orig en ps best).snapDistance = some d := by
  induction ps with
  | nil => intro best hb h; exact hb h
  | cons p ps ih =>
    intro best hb h
    simp only [calcSnapGo] at h ⊢
    split_ifs at h ⊢ with h1 h2
    · exact ih _ (fun _ => ⟨_, rfl⟩) h
    · exact ih _ hb h
    · exact ih _ hb h

/-- Transitivity of a finite strict bound across the distance order. -/
theorem distLE_of_distLT {a b : Option Rat} {d : Rat}
    (h1 : distLE a (some d)) (h2 : distLT d b) : distLE a b := by
  cases a with
  | none => exact absurd h1 id
  | some x =>
    cases b with
    | none => exact trivial
    | some y =>
      simp only [distLE] at h1 ⊢
      simp only [distLT] at h2
      linarith

/-- A distance cannot be both at most some finite d and strictly above it. -/
theorem distLE_distLT_absurd {a : Option Rat} {d : Rat}
    (h1 : distLE a (some d)) (h2 : distLT d a) : False := by
  cases a with
  | none => exact h1
  | some x =>
    simp only [distLE] at h1
    simp only [distLT] at h2
    linarith

/-- The reported distance never exceeds the seed distance. -/
theorem calcSnapGo_mono (tp orig : Rat) (en : List SnapType)
    (ps : List SnapPoint) : ∀ best : SnapResult,
    distLE (calcSnapGo tp orig en ps best).snapDistance best.snapDistance := by
  induction ps with
  | nil =>
    intro best
    cases h : best.snapDistance with
    | none => simp [calcSnapGo, h, distLE]
    | some b => simp [calcSnapGo, h, distLE]
  | cons p ps ih =>
    intro best
    simp only [calcSnapGo]
    split_ifs with h1 h2
    · exact distLE_of_distLT (ih ⟨true, p.time, orig, some p, some (abs (tp - p.time * PIXELS_PER_SECOND))⟩) h2.2
    · exact ih best
    · exact ih best

/-- If the reported distance equals the seed distance, the loop never
replaced the seed result. -/
theorem calcSnapGo_stable (tp orig : Rat) (en : List SnapType)
    (ps : List SnapPoint) : ∀ best : SnapResult,
    (calcSnapGo tp orig en ps best).snapDistance = best.snapDistance →
    calcSnapGo tp orig en ps best = best := by
  induction ps with
  | nil => intro best _; rfl
  | cons p ps ih =>
    intro best h
    simp only [calcSnapGo] at h ⊢
    split_ifs at h ⊢ with h1 h2
    · exfalso
      have hmono := calcSnapGo_mono tp orig en ps ⟨true, p.time, orig, some p, some (abs (tp - p.time * PIXELS_PER_SECOND))⟩
      rw [h] at hmono
      exact distLE_distLT_absurd hmono h2.2
    · exact ih _ h
    · exact ih _ h

/-- Among the enabled candidates that realise the winning distance, the loop
keeps the first one scanned; on a time-sorted list that is the one with the
smallest time. -/
theorem calcSnapGo_first_min (tp orig : Rat) (en : List SnapType)
    (ps : List SnapPoint) : ∀ best : SnapResult,
    ps.Pairwise (fun a b => a.time ≤ b.time) →
    (∀ sp0 : SnapPoint, best.snapPoint = some sp0 → ∀ x ∈ ps, sp0.time ≤ x.time) →
    (∀ b : Rat, best.snapDistance = some b → b ≤ SNAP_THRESHOLD) →
    ∀ q ∈ ps, q.type ∈ en →
    ∀ d : Rat, (calcSnapGo tp orig en ps best).snapDistance = some d →
    |tp - q.time * PIXELS_PER_SECOND| = d →
    ∀ sp : SnapPoint, (calcSnapGo tp orig en ps best).snapPoint = some sp →
    sp.time ≤ q.time := by
  induction ps with
  | nil => intro best _ _ _ q hq; exact absurd hq (List.not_mem_nil q)
  | cons p ps ih =>
    intro best hsorted hbest hthresh q hq hqen d hd hqd sp hsp
    rw [List.pairwise_cons] at hsorted
    simp only [calcSnapGo] at hd hsp
    rcases List.mem_cons.mp hq with hqp | hqps
    · subst hqp
      split_ifs at hd hsp with h2
      · -- the head became the new best; the final distance equals the head
        -- distance, so the loop kept the head as its result
        have hst := calcSnapGo_stable tp orig en ps ⟨true, q.time, orig, some q, some (abs (tp - q.time * PIXELS_PER_SECOND))⟩
        have hres := hst (by rw [hd, ← hqd])
        rw [hres] at hsp
        simp only [Option.some.injEq] at hsp
        rw [← hsp]
      · -- the head was enabled but rejected
        by_cases hth : |tp - q.time * PIXELS_PER_SECOND| ≤ SNAP_THRESHOLD
        · have hnlt : ¬ distLT (|tp - q.time * PIXELS_PER_SECOND|) best.snapDistance :=
            fun hc => h2 ⟨hth, hc⟩
          cases hbd : best.snapDistance with
          | none => rw [hbd] at hnlt; simp [distLT] at hnlt
          | some b =>
            rw [hbd] at hnlt
            simp only [distLT, not_lt] at hnlt
            have hmono := calcSnapGo_mono tp orig en ps best
            rw [hd, hbd] at hmono
            simp only [distLE] at hmono
            have hdb : d = b := le_antisymm hmono (by rw [← hqd]; exact hnlt)
            have hres := calcSnapGo_stable tp orig en ps best (by rw [hd, hbd, hdb])
            rw [hres] at hsp
            exact hbest sp hsp q (List.mem_cons_self q ps)
        · exfalso
          have := calcSnapGo_bound tp orig en ps best hthresh d hd
          rw [← hqd] at this
          exact hth this
    · split_ifs at hd hsp with h1 h2
      · refine ih _ hsorted.2 ?_ ?_ q hqps hqen d hd hqd sp hsp
        · intro sp0 hsp0
          simp only [Option.some.injEq] at hsp0
          rw [← hsp0]
          exact fun x hx => hsorted.1 x hx
        · intro b hbeq
          simp only [Option.some.injEq] at hbeq
          rw [← hbeq]
          exact h2.1
      · exact ih _ hsorted.2 (fun sp0 h0 x hx => hbest sp0 h0 x (List.mem_cons_of_mem p hx))
          hthresh q hqps hqen d hd hqd sp hsp
      · exact ih _ hsorted.2 (fun sp0 h0 x hx => hbest sp0 h0 x (List.mem_cons_of_mem p hx))
          hthresh q hqps hqen d hd hqd sp hsp
/-- C5: calculateSnap returns snapped = true only when the selected
candidate is within the fixed pixel threshold SNAP_THRESHOLD; it always
echoes the requested time as originalTime, and when no candidate qualifies
it returns not snapped, with the original time and an infinite distance
(modelled by snapDistance = none). -/
theorem calculateSnap_snap_bound (targetTime : Rat) (snapPoints : List SnapPoint)
    (enabledSnapTypes : List SnapType) :
    (calculateSnap targetTime snapPoints enabledSnapTypes).originalTime = targetTime ∧
    ((calculateSnap targetTime snapPoints enabledSnapTypes).snapped = true →
      ∃ d : Rat, (calculateSnap targetTime snapPoints enabledSnapTypes).snapDistance = some d ∧
        d ≤ SNAP_THRESHOLD) ∧
    ((calculateSnap targetTime snapPoints enabledSnapTypes).snapped = false →
      (calculateSnap targetTime snapPoints enabledSnapTypes).snapTime = targetTime ∧
      (calculateSnap targetTime snapPoints enabledSnapTypes).snapDistance = none) := by
  simp only [calculateSnap]
  refine ⟨?_, ?_, ?_⟩
  · exact calcSnapGo_originalTime _ _ _ _ _ rfl
  · intro hs
    obtain ⟨d, hd⟩ := calcSnapGo_snapped_some _ _ _ _ _
      (fun h => by simp [initialSnapResult] at h) hs
    exact ⟨d, hd, calcSnapGo_bound _ _ _ _ _
      (fun b hb => by simp [initialSnapResult] at hb) d hd⟩
  · intro hs
    rw [calcSnapGo_not_snapped _ _ _ _ _ hs]
    exact ⟨rfl, rfl⟩

/-- Witness for C5 at a concrete input: a playhead candidate at the target
time itself snaps with distance 0, within the threshold. -/
theorem calculateSnap_snap_bound_witness :
    ∃ d : Rat,
      (calculateSnap 1 [{ time := 1, type := SnapType.playhead, metadata := none }]
        defaultEnabledSnapTypes).snapDistance = some d ∧ d ≤ SNAP_THRESHOLD :=
  (calculateSnap_snap_bound 1 [{ time := 1, type := SnapType.playhead, metadata := none }]
    defaultEnabledSnapTypes).2.1 (by decide)

/-- C6: on a time-sorted candidate list, among the enabled candidates that
realise the winning pixel distance the resolver keeps the first minimum
found in the ascending scan, hence the snap point it returns has the
smallest time among equidistant qualifying candidates. -/
theorem calculateSnap_tie_break (targetTime : Rat) (snapPoints : List SnapPoint)
    (enabledSnapTypes : List SnapType)
    (hsorted : snapPoints.Pairwise (fun a b => a.time ≤ b.time))
    (q : SnapPoint) (hq : q ∈ snapPoints) (hqen : q.type ∈ enabledSnapTypes)
    (d : Rat)
    (hd : (calculateSnap targetTime snapPoints enabledSnapTypes).snapDistance = some d)
    (hqd : |targetTime * PIXELS_PER_SECOND - q.time * PIXELS_PER_SECOND| = d)
    (sp : SnapPoint)
    (hsp : (calculateSnap targetTime snapPoints enabledSnapTypes).snapPoint = some sp) :
    sp.time ≤ q.time := by
  simp only [calculateSnap] at hd hsp
  exact calcSnapGo_first_min _ _ _ _ _ hsorted
    (fun sp0 h0 => by simp [initialSnapResult] at h0)
    (fun b hb => by simp [initialSnapResult] at hb) q hq hqen d hd hqd sp hsp

/-- Witness for C6 at a concrete input: two playhead candidates at 1.8 s and
2.2 s are equidistant (10 px) from the target 2 s; the resolver keeps the
earlier one, whose time is the smaller. -/
theorem calculateSnap_tie_break_witness :
    ({ time := 9/5, type := SnapType.playhead, metadata := none } : SnapPoint).time ≤
      ({ time := 11/5, type := SnapType.playhead, metadata := none } : SnapPoint).time :=
  calculateSnap_tie_break 2
    [{ time := 9/5, type := SnapType.playhead, metadata := none },
      { time := 11/5, type := SnapType.playhead, metadata := none }]
    defaultEnabledSnapTypes (by decide)
    { time := 11/5, type := SnapType.playhead, metadata := none } (by decide) (by decide)
    10 (by decide) (by decide)
    { time := 9/5, type := SnapType.playhead, metadata := none } (by decide)

/- Collision resolution against a single other clip. -/

/-- When the target track holds a single other clip, a position on which the
adjacency exception does not fire and whose leftward slide is not clamped at
zero resolves to a position with no true overlap against that clip. -/
theorem resolveCollisionLoop_single_no_overlap (p d : Rat) (o : TimelineClip)
    (hadj : trueOverlap p d o → ¬ adjacentException p d o)
    (hclamp : trueOverlap p d o → p < o.timeline_position →
      0 ≤ o.timeline_position - d) :
    ¬ trueOverlap (resolveCollisionLoop p d [o]) d o := by
  have htol : (0:Rat) < ADJACENCY_TOLERANCE := by norm_num [ADJACENCY_TOLERANCE]
  simp only [resolveCollisionLoop]
  split_ifs with h1 h2 h3
  · exact absurd h2 (hadj h1)
  · rw [max_eq_right (hclamp h1 h3)]
    rintro ⟨_, hB⟩
    have : o.timeline_position - d + d = o.timeline_position := by ring
    rw [this] at hB
    linarith
  · rintro ⟨hA, _⟩
    linarith
  · exact h1

/-- When the target track holds a single other clip, collision resolution is
idempotent on nonnegative positions. -/
theorem resolveCollisionLoop_single_idem (o : TimelineClip) (d p : Rat) (hp : 0 ≤ p) :
    resolveCollisionLoop (resolveCollisionLoop p d [o]) d [o] = resolveCollisionLoop p d [o] := by
  have htol : (0:Rat) < ADJACENCY_TOLERANCE := by norm_num [ADJACENCY_TOLERANCE]
  by_cases h1 : trueOverlap p d o
  · by_cases h2 : adjacentException p d o
    · have hv : resolveCollisionLoop p d [o] = p := by
        simp only [resolveCollisionLoop]
        rw [if_pos h1, if_pos h2]
      rw [hv]
      exact hv
    · by_cases h3 : p < o.timeline_position
      · have hv : resolveCollisionLoop p d [o] = max 0 (o.timeline_position - d) := by
          simp only [resolveCollisionLoop]
          rw [if_pos h1, if_neg h2, if_pos h3]
        rw [hv]
        rcases le_or_lt 0 (o.timeline_position - d) with hge | hlt
        · rw [max_eq_right hge]
          have hno : ¬ trueOverlap (o.timeline_position - d) d o := by
            rintro ⟨_, hB⟩
            have : o.timeline_position - d + d = o.timeline_position := by ring
            rw [this] at hB
            linarith
          simp only [resolveCollisionLoop]
          rw [if_neg hno]
        · rw [max_eq_left (le_of_lt hlt)]
          have hoS : (0:Rat) < o.timeline_position := lt_of_le_of_lt hp h3
          by_cases g1 : trueOverlap 0 d o
          · by_cases g2 : adjacentException 0 d o
            · simp only [resolveCollisionLoop]
              rw [if_pos g1, if_pos g2]
            · simp only [resolveCollisionLoop]
              rw [if_pos g1, if_neg g2, if_pos hoS]
              exact max_eq_left (le_of_lt hlt)
          · simp only [resolveCollisionLoop]
            rw [if_neg g1]
      · have hv : resolveCollisionLoop p d [o] =
            o.timeline_position + (o.end_time - o.start_time) := by
          simp only [resolveCollisionLoop]
          rw [if_pos h1, if_neg h2, if_neg h3]
        rw [hv]
        have hno : ¬ trueOverlap (o.timeline_position + (o.end_time - o.start_time)) d o := by
          rintro ⟨hA, _⟩
          linarith
        simp only [resolveCollisionLoop]
        rw [if_neg hno]
  · have hv : resolveCollisionLoop p d [o] = p := by
      simp only [resolveCollisionLoop]
      rw [if_neg h1]
    rw [hv]
    exact hv

/-- C3 counterexample: on a track with the two clips [6, 8) and [0, 5.5),
resolving a 2 s clip dropped at 4 s slides it to 5.5 s, but resolving 5.5 s
again slides it back to 4 s, so re-running the collision resolver on its own
output changes the position. -/
theorem collisionStep_not_idempotent :
    collisionStep trackFlip "x" 2 (collisionStep trackFlip "x" 2 4) ≠
      collisionStep trackFlip "x" 2 4 := by decide

/-- C3 amended: collision resolution is idempotent whenever the destination
track holds at most one clip other than the dragged one and the input
position is nonnegative; with two or more other clips a slide can land on a
further clip and flip back and forth (see the counterexample). -/
theorem collisionStep_idempotent (tt : Track) (clipId : String) (d p : Rat)
    (hlen : (tt.clips.filter fun c => c.id != clipId).length ≤ 1)
    (hp : 0 ≤ p) :
    collisionStep tt clipId d (collisionStep tt clipId d p) =
      collisionStep tt clipId d p := by
  simp only [collisionStep]
  cases hcl : tt.clips.filter fun c => c.id != clipId with
  | nil => simp [resolveCollisionLoop]
  | cons o rest =>
    cases rest with
    | nil => exact resolveCollisionLoop_single_idem o d p hp
    | cons o2 r2 =>
      rw [hcl] at hlen
      simp at hlen

/-- Witness for the amended C3: on the single-clip track of Scenario B,
resolving the already-resolved position returns it unchanged. -/
theorem collisionStep_idempotent_witness :
    collisionStep trackA "b" 2 (collisionStep trackA "b" 2 1) =
      collisionStep trackA "b" 2 1 :=
  collisionStep_idempotent trackA "b" 2 1 (by decide) (by norm_num)

/-- C2 counterexample: with snapping disabled, dropping the 2 s clip at raw
5.05 s next to the clip [0, 5.1) quantizes to 76/15 s; the collision scan
detects the true overlap but the adjacency exception (0.1 s) fires, so the
committed move leaves a true overlap of 1/30 s beyond the 10 ms tolerance
between the two clips sharing track 1. -/
theorem handleClipMove_commits_true_overlap :
    (handleClipMove [trackA51, trackB] none none none false "b" 1 (101/20)).map
      (fun r => r.2.timeline_position) = some (76/15) ∧
    trueOverlap (76/15) 2 clipA51 := by
  constructor
  · decide
  · decide

/-- C2 amended: after a completed move onto a track holding exactly one
other clip, if the adjacency exception does not fire on the pre-collision
position and a leftward slide is not clamped at zero, the committed position
does not truly overlap that clip. -/
theorem handleClipMove_single_no_overlap (tracks : List Track)
    (playheadTime : Option Rat) (keyframes : Option (List Rat))
    (gridInterval : Option Rat) (snapEnabled : Bool)
    (clipId : String) (newTrackId : Int) (rawPosition : Rat)
    (mc : TimelineClip) (tt : Track) (other : TimelineClip) (q : Rat)
    (hmc : findClip tracks clipId = some mc)
    (htt : tracks.find? (fun t => t.id == newTrackId) = some tt)
    (hclips : tt.clips.filter (fun c => c.id != clipId) = [other])
    (hq : q = preCollisionPosition tracks playheadTime keyframes gridInterval
      snapEnabled mc rawPosition)
    (hadj : trueOverlap q (mc.end_time - mc.start_time) other →
      ¬ adjacentException q (mc.end_time - mc.start_time) other)
    (hclamp : trueOverlap q (mc.end_time - mc.start_time) other →
      q < other.timeline_position →
      0 ≤ other.timeline_position - (mc.end_time - mc.start_time)) :
    ∀ newTracks req, handleClipMove tracks playheadTime keyframes gridInterval
      snapEnabled clipId newTrackId rawPosition = some (newTracks, req) →
    ¬ trueOverlap req.timeline_position (mc.end_time - mc.start_time) other := by
  intro newTracks req h
  simp only [handleClipMove, hmc, htt] at h
  rw [Option.some.injEq, Prod.mk.injEq] at h
  rw [← h.2]
  simp only [collisionStep, hclips, ← hq]
  exact resolveCollisionLoop_single_no_overlap q (mc.end_time - mc.start_time)
    other hadj hclamp

/-- Witness for the amended C2 on Scenario B: the committed position 5 s
does not truly overlap the clip [0, 5). -/
theorem handleClipMove_single_no_overlap_witness :
    ¬ trueOverlap (5:Rat) 2 clipA :=
  handleClipMove_single_no_overlap [trackA, trackB] none none none true "b" 1 1
    clipB trackA clipA 1 (by decide) (by decide) (by decide) (by decide)
    (by decide) (by decide)
    [{ id := 1, clips := [clipA, { id := "b", track_id := 1, start_time := 0, end_time := 2, timeline_position := 5 }], enabled := true, locked := false },
     { id := 2, clips := [], enabled := true, locked := false }]
    { clip_id := "b", track_id := 1, timeline_position := 5 }
    (by decide)

/- Frame quantization and the order of the drop pipeline. -/

/-- The output of the frame quantizer is an integer multiple of 1/30 s. -/
theorem quantizeToFrame_frameAligned (q : Rat) : isFrameAligned (quantizeToFrame q) :=
  ⟨jsRound (q / frameTime), rfl⟩

/-- The pre-collision position is frame aligned, quantization being the last
step before the collision scan. -/
theorem preCollisionPosition_frameAligned (tracks : List Track)
    (playheadTime : Option Rat) (keyframes : Option (List Rat))
    (gridInterval : Option Rat) (snapEnabled : Bool)
    (movedClip : TimelineClip) (rawPosition : Rat) :
    isFrameAligned (preCollisionPosition tracks playheadTime keyframes
      gridInterval snapEnabled movedClip rawPosition) :=
  quantizeToFrame_frameAligned _

/-- C1 counterexample: in handleClipMove the frame quantizer runs before the
collision scan, not after it. Dropping the 2 s clip at raw 1 s beside the
clip [0, 5.05) commits the slide target 5.05 s, which is not a multiple of
1/30 s, so the committed timeline_position of a move is not always frame
aligned. -/
theorem handleClipMove_commits_nonaligned :
    (handleClipMove [trackA505, trackB] none none none true "b" 1 1).map
      (fun r => r.2.timeline_position) = some (101/20) ∧
    ¬ isFrameAligned (101/20) := by
  constructor
  · decide
  · rintro ⟨k, hk⟩
    rw [frameTime] at hk
    have hk2 : (303 : Rat) = 2 * (k : Rat) := by
      field_simp at hk
      linarith
    have hk3 : (303 : Int) = 2 * k := by exact_mod_cast hk2
    omega

/-- C1 amended: quantization is applied after snapping and clamping but
before collision resolution; whenever the collision scan leaves the
quantized position unchanged (in particular when the destination track does
not exist or holds no other clip), the committed timeline_position is an
exact multiple of 1/30 s. A collision slide, however, can commit a
non-frame-aligned position (see the counterexample). -/
theorem handleClipMove_frame_aligned (tracks : List Track)
    (playheadTime : Option Rat) (keyframes : Option (List Rat))
    (gridInterval : Option Rat) (snapEnabled : Bool)
    (clipId : String) (newTrackId : Int) (rawPosition : Rat)
    (mc : TimelineClip)
    (hmc : findClip tracks clipId = some mc)
    (hfix : ∀ tt : Track, tracks.find? (fun t => t.id == newTrackId) = some tt →
      collisionStep tt clipId (mc.end_time - mc.start_time)
        (preCollisionPosition tracks playheadTime keyframes gridInterval
          snapEnabled mc rawPosition) =
      preCollisionPosition tracks playheadTime keyframes gridInterval
        snapEnabled mc rawPosition) :
    ∀ newTracks req, handleClipMove tracks playheadTime keyframes gridInterval
      snapEnabled clipId newTrackId rawPosition = some (newTracks, req) →
    isFrameAligned req.timeline_position := by
  intro newTracks req h
  simp only [handleClipMove, hmc] at h
  cases htt : tracks.find? (fun t => t.id == newTrackId) with
  | none =>
    rw [htt] at h
    rw [Option.some.injEq, Prod.mk.injEq] at h
    rw [← h.2]
    exact preCollisionPosition_frameAligned tracks playheadTime keyframes
      gridInterval snapEnabled mc rawPosition
  | some tt =>
    rw [htt] at h
    rw [Option.some.injEq, Prod.mk.injEq] at h
    rw [← h.2]
    show isFrameAligned (collisionStep tt clipId (mc.end_time - mc.start_time)
      (preCollisionPosition tracks playheadTime keyframes gridInterval
        snapEnabled mc rawPosition))
    rw [hfix tt htt]
    exact preCollisionPosition_frameAligned tracks playheadTime keyframes
      gridInterval snapEnabled mc rawPosition

/-- Witness for the amended C1: moving the 2 s clip within its own track to
raw 1/3 s meets no other clip, so the collision scan is the identity and the
committed position 1/3 s is frame aligned. -/
theorem handleClipMove_frame_aligned_witness : isFrameAligned ((1:Rat)/3) :=
  handleClipMove_frame_aligned [trackA, trackB] none none none true "b" 2 (1/3)
    clipB (by decide)
    (by
      intro tt h
      rw [show List.find? (fun t => t.id == (2:Int)) [trackA, trackB] =
        some trackB by decide] at h
      rw [Option.some.injEq] at h
      rw [← h]
      decide)
    [{ id := 1, clips := [clipA], enabled := true, locked := false },
     { id := 2, clips := [{ id := "b", track_id := 2, start_time := 0, end_time := 2, timeline_position := 1/3 }], enabled := true, locked := false }]
    { clip_id := "b", track_id := 2, timeline_position := 1/3 }
    (by decide)

/-- C7: Scenario B. On a track holding the clip [0, 5), dropping the 2 s
clip at raw 1 s (no snap candidate within threshold, since the clip edges at
0 and 5 are 50 px and 200 px away) makes the collision resolver slide it to
start exactly at 5 s, immediately after the existing clip. -/
theorem handleClipMove_scenario_b :
    (handleClipMove [trackA, trackB] none none none true "b" 1 1).map
      (fun r => r.2.timeline_position) = some 5 := by decide

/-- C4: with grid snapping enabled at 1 s spacing (gridInterval = some 1)
and no clip-edge candidate anywhere near, a drop at raw 4.62 s commits
139/30 s (the frame-quantized raw position), not the 5 s the specification
requires: snapClipPosition never forwards the grid interval to
calculateMagneticSnap, so grid points are absent from the catalog used for
clip moves. -/
theorem handleClipMove_grid_not_applied :
    (handleClipMove [trackB] none none (some 1) true "b" 2 (231/50)).map
      (fun r => r.2.timeline_position) = some (139/30) ∧
    (139/30 : Rat) ≠ 5 := by
  constructor
  · decide
  · decide

/- Structure of the optimistic local mutation. -/

/-- A track in the output of pushToTrack is either an untouched input track
or the first input track carrying the destination id with the new clip
appended to it. -/
theorem pushToTrack_mem (newTrackId : Int) (nc : TimelineClip) (l : List Track)
    (t : Track) (ht : t ∈ pushToTrack newTrackId nc l) :
    t ∈ l ∨ ∃ t0 ∈ l, t0.id = newTrackId ∧ t = { t0 with clips := t0.clips ++ [nc] } := by
  induction l with
  | nil => simp [pushToTrack] at ht
  | cons t0 ts ih =>
    simp only [pushToTrack] at ht
    split_ifs at ht with h0
    · rcases List.mem_cons.mp ht with h | h
      · right
        exact ⟨t0, List.mem_cons_self t0 ts, by simpa using h0, h⟩
      · left
        exact List.mem_cons_of_mem _ h
    · rcases List.mem_cons.mp ht with h | h
      · left
        exact h ▸ List.mem_cons_self t0 ts
      · rcases ih h with h | ⟨t1, ht1, hid, heq⟩
        · left
          exact List.mem_cons_of_mem _ h
        · right
          exact ⟨t1, List.mem_cons_of_mem _ ht1, hid, heq⟩

/-- In the state produced by the optimistic mutation, every clip still
carrying the moved id is the repositioned copy of the moved clip: its source
trim bounds are unchanged. -/
theorem optimisticUpdate_id_times (tracks : List Track) (clipId : String)
    (newTrackId : Int) (mc : TimelineClip) (fp : Rat) :
    ∀ t ∈ optimisticUpdate tracks clipId newTrackId mc fp, ∀ c ∈ t.clips,
      c.id = clipId → c.start_time = mc.start_time ∧ c.end_time = mc.end_time := by
  intro t ht c hc hcid
  simp only [optimisticUpdate] at ht
  rcases pushToTrack_mem _ _ _ _ ht with h | ⟨t1, ht1, _, heq⟩
  · rcases List.mem_map.mp h with ⟨t0, _, rfl⟩
    have := (List.mem_filter.mp hc).2
    simp [hcid] at this
  · subst heq
    rcases List.mem_append.mp hc with h | h
    · rcases List.mem_map.mp ht1 with ⟨t0, _, rfl⟩
      have := (List.mem_filter.mp h).2
      simp [hcid] at this
    · rcases List.mem_singleton.mp h with rfl
      exact ⟨rfl, rfl⟩

/-- C8: for every successful move, the optimistic local state keeps the
moved clip with its start_time and end_time unchanged, hence with unchanged
duration end_time − start_time; the persistence request carries only the
clip id, the destination track id and the new timeline position. -/
theorem handleClipMove_duration_invariance (tracks : List Track)
    (playheadTime : Option Rat) (keyframes : Option (List Rat))
    (gridInterval : Option Rat) (snapEnabled : Bool)
    (clipId : String) (newTrackId : Int) (rawPosition : Rat)
    (mc : TimelineClip)
    (hmc : findClip tracks clipId = some mc) :
    ∀ newTracks req, handleClipMove tracks playheadTime keyframes gridInterval
      snapEnabled clipId newTrackId rawPosition = some (newTracks, req) →
    ∀ t ∈ newTracks, ∀ c ∈ t.clips, c.id = clipId →
      c.start_time = mc.start_time ∧ c.end_time = mc.end_time ∧
      c.end_time - c.start_time = mc.end_time - mc.start_time := by
  intro newTracks req h t ht c hc hcid
  simp only [handleClipMove, hmc] at h
  cases htt : tracks.find? (fun t => t.id == newTrackId) with
  | none =>
    rw [htt] at h
    rw [Option.some.injEq, Prod.mk.injEq] at h
    rw [← h.1] at ht
    obtain ⟨h1, h2⟩ := optimisticUpdate_id_times tracks clipId newTrackId mc _ t ht c hc hcid
    exact ⟨h1, h2, by rw [h1, h2]⟩
  | some tt =>
    rw [htt] at h
    rw [Option.some.injEq, Prod.mk.injEq] at h
    rw [← h.1] at ht
    obtain ⟨h1, h2⟩ := optimisticUpdate_id_times tracks clipId newTrackId mc _ t ht c hc hcid
    exact ⟨h1, h2, by rw [h1, h2]⟩

/-- Witness for C8 on Scenario B: in the committed state the moved clip on
track 1 keeps trim bounds 0 and 2, so its duration is unchanged. -/
theorem handleClipMove_duration_invariance_witness :
    ({ id := "b", track_id := 1, start_time := 0, end_time := 2, timeline_position := 5 } : TimelineClip).start_time = clipB.start_time ∧
    ({ id := "b", track_id := 1, start_time := 0, end_time := 2, timeline_position := 5 } : TimelineClip).end_time = clipB.end_time ∧
    ({ id := "b", track_id := 1, start_time := 0, end_time := 2, timeline_position := 5 } : TimelineClip).end_time -
      ({ id := "b", track_id := 1, start_time := 0, end_time := 2, timeline_position := 5 } : TimelineClip).start_time =
      clipB.end_time - clipB.start_time :=
  handleClipMove_duration_invariance [trackA, trackB] none none none true "b" 1 1
    clipB (by decide)
    [{ id := 1, clips := [clipA, { id := "b", track_id := 1, start_time := 0, end_time := 2, timeline_position := 5 }], enabled := true, locked := false },
     { id := 2, clips := [], enabled := true, locked := false }]
    { clip_id := "b", track_id := 1, timeline_position := 5 }
    (by decide)
    { id := 1, clips := [clipA, { id := "b", track_id := 1, start_time := 0, end_time := 2, timeline_position := 5 }], enabled := true, locked := false }
    (by decide)
    { id := "b", track_id := 1, start_time := 0, end_time := 2, timeline_position := 5 }
    (by decide) (by decide)

/-- C9: when no clip with the dragged id exists anywhere in the track
snapshot, handleClipMove returns without producing a new state or a
persistence request (modelled by the none result): the drop is ignored and
the tracks are left exactly as they were. -/
theorem handleClipMove_invalid_drag (tracks : List Track)
    (playheadTime : Option Rat) (keyframes : Option (List Rat))
    (gridInterval : Option Rat) (snapEnabled : Bool)
    (clipId : String) (newTrackId : Int) (rawPosition : Rat)
    (h : ∀ t ∈ tracks, ∀ c ∈ t.clips, c.id ≠ clipId) :
    handleClipMove tracks playheadTime keyframes gridInterval snapEnabled
      clipId newTrackId rawPosition = none := by
  have hfind : findClip tracks clipId = none := by
    simp only [findClip]
    rw [List.find?_eq_none]
    intro c hcmem
    rcases List.mem_flatMap.mp hcmem with ⟨t, ht, hc⟩
    simpa using h t ht c hc
  simp [handleClipMove, hfind]

/-- Witness for C9: dropping an unknown clip id on the two-track state is
ignored. -/
theorem handleClipMove_invalid_drag_witness :
    handleClipMove [trackA, trackB] none none none true "zzz" 1 1 = none :=
  handleClipMove_invalid_drag [trackA, trackB] none none none true "zzz" 1 1
    (by decide)

/-- Filtering the moved id out of a clip list leaves no clip carrying it. -/
theorem countId_filter_ne (clipId : String) (l : List TimelineClip) :
    ((l.filter fun c => c.id != clipId).filter fun c => c.id == clipId).length = 0 := by
  induction l with
  | nil => rfl
  | cons c cs ih =>
    by_cases h : c.id = clipId
    · simp [List.filter_cons, h, ih]
    · simp [List.filter_cons, h, ih]

/-- A track list whose clip lists hold no moved id counts zero. -/
theorem clipIdCount_eq_zero (clipId : String) (l : List Track)
    (h0 : ∀ t ∈ l, ((t.clips.filter fun c => c.id == clipId).length = 0)) :
    clipIdCount clipId l = 0 := by
  induction l with
  | nil => rfl
  | cons t ts ih =>
    simp only [clipIdCount, List.map_cons, List.sum_cons]
    rw [h0 t (List.mem_cons_self t ts)]
    have hts := ih (fun t ht => h0 t (List.mem_cons_of_mem _ ht))
    simp only [clipIdCount] at hts
    rw [hts]

/-- Appending the moved copy to the first destination track brings the count
of the moved id to one exactly when a destination track exists. -/
theorem clipIdCount_pushToTrack (clipId : String) (newTrackId : Int)
    (nc : TimelineClip) (hnc : nc.id = clipId) (l : List Track)
    (h0 : ∀ t ∈ l, ((t.clips.filter fun c => c.id == clipId).length = 0)) :
    clipIdCount clipId (pushToTrack newTrackId nc l) =
      if l.any (fun t => t.id == newTrackId) then 1 else 0 := by
  induction l with
  | nil => simp [pushToTrack, clipIdCount]
  | cons t ts ih =>
    simp only [pushToTrack]
    by_cases h : (t.id == newTrackId) = true
    · rw [if_pos h]
      simp only [clipIdCount, List.map_cons, List.sum_cons, List.filter_append,
        List.length_append]
      rw [h0 t (List.mem_cons_self t ts)]
      have hone : ([nc].filter fun c => c.id == clipId).length = 1 := by
        simp [List.filter, hnc]
      rw [hone]
      have hz := clipIdCount_eq_zero clipId ts (fun t ht => h0 t (List.mem_cons_of_mem _ ht))
      simp only [clipIdCount] at hz
      rw [hz]
      have hany : ((t :: ts).any fun t => t.id == newTrackId) = true := by
        simp [List.any_cons, h]
      rw [hany]
      rfl
    · rw [if_neg h]
      simp only [clipIdCount, List.map_cons, List.sum_cons]
      rw [h0 t (List.mem_cons_self t ts)]
      have hts := ih (fun t ht => h0 t (List.mem_cons_of_mem _ ht))
      simp only [clipIdCount] at hts
      rw [hts]
      have hany : ((t :: ts).any fun t => t.id == newTrackId) =
          ts.any (fun t => t.id == newTrackId) := by
        simp [List.any_cons, h]
      rw [hany]
      simp

/-- Any clip still carrying the moved id after the optimistic mutation sits
on a track with the destination id. -/
theorem optimisticUpdate_location (tracks : List Track) (clipId : String)
    (newTrackId : Int) (mc : TimelineClip) (fp : Rat) :
    ∀ t ∈ optimisticUpdate tracks clipId newTrackId mc fp, ∀ c ∈ t.clips,
      c.id = clipId → t.id = newTrackId := by
  intro t ht c hc hcid
  simp only [optimisticUpdate] at ht
  rcases pushToTrack_mem _ _ _ _ ht with h | ⟨t1, ht1, hid, heq⟩
  · rcases List.mem_map.mp h with ⟨t0, _, rfl⟩
    have := (List.mem_filter.mp hc).2
    simp [hcid] at this
  · subst heq
    rcases List.mem_append.mp hc with h | h
    · rcases List.mem_map.mp ht1 with ⟨t0, _, rfl⟩
      have := (List.mem_filter.mp h).2
      simp [hcid] at this
    · exact hid

/-- C10: after the optimistic mutation the moved id occurs exactly once in
the whole state when a track with the destination id exists and not at all
otherwise, and every occurrence sits on a track with the destination id —
so the moved clip lives in at most one clip collection. -/
theorem optimisticUpdate_single_placement (tracks : List Track) (clipId : String)
    (newTrackId : Int) (mc : TimelineClip) (fp : Rat) (hid : mc.id = clipId) :
    clipIdCount clipId (optimisticUpdate tracks clipId newTrackId mc fp) =
      (if tracks.any (fun t => t.id == newTrackId) then 1 else 0) ∧
    ∀ t ∈ optimisticUpdate tracks clipId newTrackId mc fp, ∀ c ∈ t.clips,
      c.id = clipId → t.id = newTrackId := by
  constructor
  · simp only [optimisticUpdate]
    rw [clipIdCount_pushToTrack clipId newTrackId
      { mc with track_id := newTrackId, timeline_position := fp }
      (show ({ mc with track_id := newTrackId, timeline_position := fp } : TimelineClip).id = clipId from hid) _
      (fun t ht => by
        rcases List.mem_map.mp ht with ⟨t0, _, rfl⟩
        exact countId_filter_ne clipId t0.clips)]
    simp [List.any_map, Function.comp]
  · exact optimisticUpdate_location tracks clipId newTrackId mc fp

/-- Witness for C10 on Scenario B: moving the clip to track 1, the moved id
occurs exactly once across the whole optimistic state. -/
theorem optimisticUpdate_single_placement_witness :
    clipIdCount "b" (optimisticUpdate [trackA, trackB] "b" 1 clipB 5) =
      (if [trackA, trackB].any (fun t => t.id == (1:Int)) then 1 else 0) :=
  (optimisticUpdate_single_placement [trackA, trackB] "b" 1 clipB 5 (by decide)).1

end FlowCFD

